import Mathlib

/-!
Verification development for the miner_exporter program
(`src/miner_exporter.py`): a periodic metrics exporter that parses the
textual output of validator commands and a chain HTTP API and republishes
the results as labeled gauges.

The embedding below translates the parsing and collection layer of the
source into executable Lean definitions:

* Python machine values that flow through the coercers and into gauges are
  modeled by `Value` (int / float / str); Python floats are modeled as
  exact rationals, which is faithful for the decimal-literal parsing the
  program performs (no float arithmetic is at issue in any claim).
* Python exceptions are modeled with `Except PyError`; a collector that
  raises is a collector returning `Except.error`.
* The metrics registry (prometheus client) is an external collaborator and
  is modeled at its interface boundary: a gauge write is recorded as a
  `(GaugeKey, Value)` pair exactly as the source passes it, and a
  collector's effect on the sink is its ordered list of writes.
* Command execution and HTTP transport are external I/O; collectors take
  the already-decoded command output string (the result of `exec_run`) or
  the HTTP response (`Resp`) as a parameter.
-/

namespace MinerExporter

/-! ## Python string-splitting helpers -/

/-- Splits a character list at every character satisfying `p`, keeping empty
segments; models the skeleton shared by Python `str.split(sep)` (with
`p := (· = sep)`) and whitespace splitting. -/
def splitPredAux (p : Char → Bool) : List Char → List Char → List (List Char)
  | [], acc => [acc.reverse]
  | c :: rest, acc =>
    if p c then acc.reverse :: splitPredAux p rest []
    else splitPredAux p rest (c :: acc)

/-- Python `s.split(sep)` for a one-character separator: split on every
occurrence, keeping empty fields (`"".split(",") == [""]`). -/
def splitOnChar (sep : Char) (l : List Char) : List (List Char) :=
  splitPredAux (fun c => c == sep) l []

/-- The comma-separated fields of one line, as the source computes them with
`line.split(",")`. -/
def lineFields (line : String) : List String :=
  (splitOnChar ',' line.toList).map (fun l => String.mk l)

/-- Python whitespace predicate for `\s` and `str.split()` /
`str.strip()`. -/
def isPySpace (c : Char) : Bool :=
  c == ' ' || c == '\t' || c == '\n' || c == '\r' || c == '\x0b' || c == '\x0c'

/-- Python `s.split()` (no argument): split on whitespace runs, dropping
empty fields, so `"".split() == []`. -/
def pySplitWs (s : String) : List String :=
  ((splitPredAux isPySpace s.toList []).filter (fun l => !l.isEmpty)).map
    (fun l => String.mk l)

/-- Python `s.splitlines()` restricted to `\n` separators: like splitting on
`\n` but a trailing newline does not create a final empty line, and
`"".splitlines() == []`. -/
def pySplitlines (s : String) : List String :=
  let parts := splitOnChar '\n' s.toList
  let parts := match parts.getLast? with
    | some [] => parts.dropLast
    | _ => parts
  parts.map (fun l => String.mk l)

/-- Python `x.strip()`: remove leading and trailing whitespace. -/
def pyStrip (s : String) : String :=
  String.mk (((s.toList.dropWhile isPySpace).reverse.dropWhile isPySpace).reverse)

/-- Python `x.rstrip("\r\n")`: remove trailing carriage returns and
newlines. -/
def pyRstripNl (s : String) : String :=
  String.mk ((s.toList.reverse.dropWhile (fun c => c == '\r' || c == '\n')).reverse)

/-! ## Values and exceptions -/

/-- A Python value as it flows through the coercers and into the metric
sink: an int, a float (modeled as an exact rational), or a string. -/
inductive Value where
  | int (n : ℤ)
  | float (q : ℚ)
  | str (s : String)
deriving DecidableEq, Repr

/-- The Python exception classes the modeled code can raise. -/
inductive PyError where
  | typeError
  | valueError
  | keyError
  | indexError
  | attributeError
deriving DecidableEq, Repr

/-! ## Field coercion (`try_int` / `try_float`, source lines 99-108) -/

/-- The decimal value of a digit list. -/
def digitsVal (l : List Char) : ℕ :=
  l.foldl (fun a c => 10 * a + (c.toNat - 48)) 0

/-- The body of a token after an optional leading minus sign. -/
def sansSign (s : String) : List Char :=
  match s.toList with
  | '-' :: r => r
  | l => l

/-- Whether a leading minus sign is present. -/
def hasSign (s : String) : Bool :=
  match s.toList with
  | '-' :: _ => true
  | _ => false

/-- Does `s` match the anchored regex pattern of `try_int`,
an optional sign followed by one or more ASCII digits? -/
def matchesIntPattern (s : String) : Bool :=
  let t := sansSign s
  !t.isEmpty && t.all (fun c => c.isDigit)

/-- Does `s` match the anchored regex pattern of `try_float`,
an optional sign followed by one or more digit-or-dot characters? -/
def matchesFloatPattern (s : String) : Bool :=
  let t := sansSign s
  !t.isEmpty && t.all (fun c => c.isDigit || c == '.')

/-- The integer denoted by a token matching the int pattern; models the
Python builtin `int` on such tokens. -/
def intDenote (s : String) : ℤ :=
  if hasSign s then -(digitsVal (sansSign s) : ℤ) else (digitsVal (sansSign s) : ℤ)

/-- The rational denoted by a sign-digits-dot token (integer part plus
fractional part); models the value the Python builtin `float` produces on
such tokens when it succeeds. -/
def floatDenote (s : String) : ℚ :=
  let t := sansSign s
  let ip := t.takeWhile (fun c => c ≠ '.')
  let fp := (t.dropWhile (fun c => c ≠ '.')).drop 1
  let q : ℚ := (digitsVal ip : ℚ) + (digitsVal fp : ℚ) / ((10 : ℚ) ^ fp.length)
  if hasSign s then -q else q

/-- Does the Python builtin `float` accept a token made of an optional sign
and digit-or-dot characters?  It does exactly when there is at most one dot
and at least one digit (e.g. `float("1.2.3")` and `float(".")` raise
`ValueError`). -/
def pyFloatValid (s : String) : Bool :=
  let t := sansSign s
  decide (t.count '.' ≤ 1) && t.any (fun c => c.isDigit)

/-- The Python builtin `float` on a token matching the float pattern:
`some` value, or `none` for a `ValueError`. -/
def parsePyFloat (s : String) : Option ℚ :=
  if pyFloatValid s then some (floatDenote s) else none

/-- `try_int` applied to a string argument (the only way the source calls
it): return the parsed integer when the token matches `^-?\d+$`, else the
original token.  Never raises on a string. -/
def try_int_str (s : String) : Value :=
  if matchesIntPattern s then Value.int (intDenote s) else Value.str s

/-- `try_float` applied to a string argument: when the token matches
`^-?[\d.]+$`, return `float(v)` — which raises `ValueError` for tokens like
`"1.2.3"` that match the pattern but are not float literals — else return
the original token. -/
def try_float_str (s : String) : Except PyError Value :=
  if matchesFloatPattern s then
    match parsePyFloat s with
    | some q => Except.ok (Value.float q)
    | none => Except.error PyError.valueError
  else Except.ok (Value.str s)

/-- `try_int` on an arbitrary value: `re.match` raises `TypeError` when its
second argument is not a string. -/
def try_int : Value → Except PyError Value
  | Value.str s => Except.ok (try_int_str s)
  | _ => Except.error PyError.typeError

/-- `try_float` on an arbitrary value: `re.match` raises `TypeError` when
its second argument is not a string. -/
def try_float : Value → Except PyError Value
  | Value.str s => try_float_str s
  | _ => Except.error PyError.typeError

/-! ## The metric sink interface

The prometheus registry is external; a collector's effect on it is the
ordered list of `set` / `info` calls it makes, each recorded as the gauge's
identity (metric name plus label values, as in the source's global gauge
declarations) together with the value passed. -/

/-- The identity of one labeled gauge: its metric name and label values. -/
structure GaugeKey where
  metric : String
  labels : List String
deriving DecidableEq, Repr

/-- One write into the metric sink. -/
abbrev Write := GaugeKey × Value

/-- `SYSTEM_USAGE.labels(resource_type, validator_name)`. -/
def sysKey (rt name : String) : GaugeKey := ⟨"system_usage", [rt, name]⟩

/-- `CHAIN_STATS.labels(resource_type)`. -/
def chainKey (rt : String) : GaugeKey := ⟨"chain_stats", [rt]⟩

/-- `VAL.labels(resource_type, validator_name)`. -/
def valKey (rt name : String) : GaugeKey := ⟨"validator_height", [rt, name]⟩

/-- `INCON.labels(validator_name)`. -/
def inconKey (name : String) : GaugeKey := ⟨"validator_inconsensus", [name]⟩

/-- `BLOCKAGE.labels(resource_type, validator_name)`. -/
def blockageKey (rt name : String) : GaugeKey := ⟨"validator_block_age", [rt, name]⟩

/-- `HBBFT_PERF.labels("hbbft_perf", subtype, validator_name)`. -/
def hbbftKey (sub name : String) : GaugeKey :=
  ⟨"validator_hbbft_perf", ["hbbft_perf", sub, name]⟩

/-- `CONNECTIONS.labels("connections", validator_name)`. -/
def connKey (name : String) : GaugeKey :=
  ⟨"validator_connections", ["connections", name]⟩

/-- `SESSIONS.labels("sessions", validator_name)`. -/
def sessKey (name : String) : GaugeKey := ⟨"validator_sessions", ["sessions", name]⟩

/-- `LEDGER_PENALTY.labels("ledger_penalties", subtype, validator_name)`. -/
def ledgerKey (sub name : String) : GaugeKey :=
  ⟨"validator_ledger", ["ledger_penalties", sub, name]⟩

/-- `VALIDATOR_VERSION.labels(validator_name)` (info metric). -/
def versionKey (name : String) : GaugeKey := ⟨"validator_version", [name]⟩

/-- `BALANCE.labels(validator_name)`. -/
def balanceKey (name : String) : GaugeKey := ⟨"validator_api_balance", [name]⟩

/-- `UPTIME.labels(state_type, validator_name)`. -/
def uptimeKey (st name : String) : GaugeKey :=
  ⟨"validator_container_uptime", [st, name]⟩

/-! ## JSON values and the HTTP boundary (`safe_get_json`, lines 515-526) -/

/-- A decoded JSON document. -/
inductive Json where
  | null
  | jbool (b : Bool)
  | num (q : ℚ)
  | str (s : String)
  | arr (l : List Json)
  | obj (kvs : List (String × Json))

/-- Python truthiness of a decoded JSON value. -/
def truthyJ : Json → Bool
  | Json.null => false
  | Json.jbool b => b
  | Json.num q => !(q == 0)
  | Json.str s => !s.isEmpty
  | Json.arr l => !l.isEmpty
  | Json.obj kvs => !kvs.isEmpty

/-- Python truthiness of `safe_get_json`'s result (`None` is falsy). -/
def truthyO : Option Json → Bool
  | none => false
  | some j => truthyJ j

/-- `j[k]` on a decoded JSON value: `KeyError` when the key is absent from a
dict, `TypeError` when the value is not a dict. -/
def jsonIndex (j : Json) (k : String) : Except PyError Json :=
  match j with
  | Json.obj kvs =>
    match kvs.find? (fun p => p.1 == k) with
    | some p => Except.ok p.2
    | none => Except.error PyError.keyError
  | _ => Except.error PyError.typeError

/-- `j.get(k)`: `None` when absent, `AttributeError` when `j` is not a
dict. -/
def jsonGet (j : Json) (k : String) : Except PyError (Option Json) :=
  match j with
  | Json.obj kvs => Except.ok ((kvs.find? (fun p => p.1 == k)).map (fun p => p.2))
  | _ => Except.error PyError.attributeError

/-- The value the source passes to `Gauge.set` when it writes a decoded
JSON leaf: JSON integers stay integers, other numbers are floats. -/
def jsonVal : Json → Value
  | Json.num q => if q.den = 1 then Value.int q.num else Value.float q
  | Json.str s => Value.str s
  | Json.jbool b => Value.int (if b then 1 else 0)
  | _ => Value.str ""

/-- The Python builtin `float` applied to a decoded JSON leaf (partial
model: decimal string grammar only, which is all the API returns). -/
def pyFloatOfJson : Json → Except PyError ℚ
  | Json.num q => Except.ok q
  | Json.jbool b => Except.ok (if b then 1 else 0)
  | Json.str s =>
    if matchesFloatPattern s then
      match parsePyFloat s with
      | some q => Except.ok q
      | none => Except.error PyError.valueError
    else Except.error PyError.valueError
  | _ => Except.error PyError.typeError

/-- The outcome of `requests.get(url)` as the collectors can observe it:
a response whose body parses (`ok (some j)`), a response whose body is
malformed JSON (`ok none`, so that `ret.json()` raises), a non-200 status,
or a connection / TLS failure raised by the transport. -/
inductive Resp where
  | ok (body : Option Json)
  | badStatus
  | connError
  | sslError

/-- `safe_get_json` (lines 515-526): non-200 statuses and connection / TLS
errors are logged and turned into `None`, but a malformed body makes
`ret.json()` raise `json.JSONDecodeError` — a `ValueError` that the
`except` clause does not catch. -/
def safe_get_json : Resp → Except PyError (Option Json)
  | Resp.badStatus => Except.ok none
  | Resp.connError => Except.ok none
  | Resp.sslError => Except.ok none
  | Resp.ok none => Except.error PyError.valueError
  | Resp.ok (some j) => Except.ok (some j)

/-! ## The fact resolver (`get_facts`, lines 169-205) -/

/-- The left-brace character, written by code point to keep brace handling
out of string literals. -/
def braceL : Char := Char.ofNat 123

/-- The right-brace character. -/
def braceR : Char := Char.ofNat 125

/-- The double-quote character. -/
def dquote : Char := Char.ofNat 34

/-- One line matched against the key-print pattern
`r'\x7b([^,]+),"([^"]+)"\x7d.'` (an opening brace, a nonempty comma-free
key, a comma, a nonempty quoted value, a closing brace, then any one
character; `re.match` allows trailing garbage).  The pattern is
deterministic: the character classes cannot cross their delimiters, so no
backtracking ambiguity arises. -/
def parseFactLine (line : String) : Option (String × String) :=
  match line.toList with
  | c :: rest =>
    if c = braceL then
      let k := rest.takeWhile (fun x => x ≠ ',')
      match rest.dropWhile (fun x => x ≠ ',') with
      | _ :: r2 =>
        if k.isEmpty then none
        else
          match r2 with
          | q :: r3 =>
            if q = dquote then
              let v := r3.takeWhile (fun x => x ≠ dquote)
              match r3.dropWhile (fun x => x ≠ dquote) with
              | _ :: rb :: _ :: _ =>
                if v.isEmpty then none
                else if rb = braceR then some (String.mk k, String.mk v) else none
              | _ => none
            else none
          | [] => none
      | [] => none
    else none
  | [] => none

/-- Assignment into a Python dict modeled as an association list in
insertion order (later assignments overwrite in place). -/
def dictSet (d : List (String × String)) (k v : String) : List (String × String) :=
  if d.any (fun p => p.1 == k) then
    d.map (fun p => if p.1 == k then (k, v) else p)
  else d ++ [(k, v)]

/-- `d.get(k)` on the modeled dict. -/
def dictGet (d : List (String × String)) (k : String) : Option String :=
  (d.find? (fun p => p.1 == k)).map (fun p => p.2)

/-- The `print_keys` dict built by the resolver loop from the key-print
output. -/
def print_keys (out : String) : List (String × String) :=
  (pySplitlines out).foldl
    (fun d line =>
      match parseFactLine line with
      | some (k, v) => dictSet d k v
      | none => d)
    []

/-- The `miner_facts` dict: each field is `none` when its key was never
assigned; `name`, when assigned, receives the Python variable `v` — which
at that point holds `print_keys.get("pubkey")` and may itself be `None`. -/
structure MinerFacts where
  address : Option String := none
  name : Option (Option String) := none
deriving DecidableEq, Repr

/-- Python truthiness of `dict.get`'s result. -/
def truthyS : Option String → Bool
  | none => false
  | some s => !s.isEmpty

/-- `get_facts` (lines 169-205): parse each line into `print_keys`, then
set `address` from key `pubkey` when its value is truthy, and set `name`
when key `animal_name` has a truthy value — storing the walrus-bound `v`
from the `pubkey` lookup, not the `animal_name` value. -/
def get_facts (out : String) : MinerFacts :=
  let pk := print_keys out
  let v := dictGet pk ("pubkey")
  let f1 : MinerFacts :=
    if truthyS v then { address := v, name := none } else { address := none, name := none }
  if truthyS (dictGet pk ("animal_name")) then { f1 with name := some v } else f1

/-! ## Collectors

Each collector takes the resolved validator name and its data source's
output (the decoded string returned by `exec_run`, or the HTTP `Resp`) and
yields the ordered list of gauge writes it performs — or the exception it
raises. -/

/-- `collect_miner_height` (lines 216-219): whitespace-split the output and
write the second token, uncoerced, to the height gauge.  `out.split()[1]`
raises `IndexError` when fewer than two tokens are present (in particular
on empty output). -/
def collect_miner_height (name out : String) : Except PyError (List Write) :=
  match pySplitWs out with
  | _ :: h :: _ => Except.ok [(valKey ("Height") name, Value.str h)]
  | _ => Except.error PyError.indexError

/-- Container metadata as the collector reads it; the `Created` and
`State.StartedAt` timestamps are abstracted to their parsed epoch values
(`dateutil` and docker are external collaborators). -/
structure CAttrs where
  created : Option ℚ := none
  startedAt : Option ℚ := none

/-- `collect_container_run_time` (lines 221-252): when attrs are present,
write seconds since create and seconds since start, each guarded by its own
presence check. -/
def collect_container_run_time (name : String) (attrs : Option CAttrs) (now : ℚ) :
    List Write :=
  match attrs with
  | none => []
  | some a =>
    (match a.created with
     | some c => [(uptimeKey ("create") name, Value.float (now - c))]
     | none => []) ++
    (match a.startedAt with
     | some st => [(uptimeKey ("start") name, Value.float (now - st))]
     | none => [])

/-- `collect_chain_stats` (lines 254-269): fetch `/blocks/height`, return
early (no writes) when the result is falsy, else index `data.height` and
write it; then the same for `/validators/stats` and `data.staked.count`. -/
def collect_chain_stats (hresp sresp : Resp) : Except PyError (List Write) := do
  let height ← safe_get_json hresp
  match height with
  | none => return []
  | some hj =>
    if truthyJ hj = false then return []
    else
      let d ← jsonIndex hj ("data")
      let hv ← jsonIndex d ("height")
      let w1 : Write := (chainKey ("height"), jsonVal hv)
      let stats ← safe_get_json sresp
      match stats with
      | none => return [w1]
      | some sj =>
        if truthyJ sj = false then return [w1]
        else
          let sd ← jsonIndex sj ("data")
          let stk ← jsonIndex sd ("staked")
          let cv ← jsonIndex stk ("count")
          return [w1, (chainKey ("staked_validators"), jsonVal cv)]

/-- `collect_balance` (lines 271-293): fetch the validator record, guard
falsy responses and missing `data` / `owner`, then fetch the owner account,
guard again, and write `float(balance) / 1e8`.  The owner address only
forms the second URL, which is I/O and therefore a parameter here. -/
def collect_balance (name : String) (vresp aresp : Resp) : Except PyError (List Write) := do
  let av ← safe_get_json vresp
  match av with
  | none => return []
  | some avj =>
    if truthyJ avj = false then return []
    else
      let dopt ← jsonGet avj ("data")
      if truthyO dopt = false then return []
      else
        let d ← jsonIndex avj ("data")
        let oopt ← jsonGet d ("owner")
        if truthyO oopt = false then return []
        else
          let acct ← safe_get_json aresp
          match acct with
          | none => return []
          | some aj =>
            if truthyJ aj = false then return []
            else
              let adopt ← jsonGet aj ("data")
              if truthyO adopt = false then return []
              else
                let ad ← jsonIndex aj ("data")
                let bopt ← jsonGet ad ("balance")
                if truthyO bopt = false then return []
                else
                  let b ← jsonIndex ad ("balance")
                  let bq ← pyFloatOfJson b
                  return [(balanceKey name, Value.float (bq / 100000000))]

/-- `collect_in_consensus` (lines 295-304): 1 exactly when the output is
the token `true`, else 0. -/
def collect_in_consensus (name out : String) : List Write :=
  [(inconKey name, Value.int (if out = "true" then 1 else 0))]

/-- `collect_block_age` (lines 306-310): int-coerce the whole output and
write it (the uncoerced token passes through when the pattern fails). -/
def collect_block_age (name out : String) : List Write :=
  [(blockageKey ("BlockAge") name, try_int_str out)]

/-- One line matched against the version pattern `^\*\s+([\d\.]+)(.*)`:
a literal star, one or more whitespace characters, then the digits-and-dots
group; anything may follow. -/
def versionLine (line : String) : Option String :=
  match line.toList with
  | c :: rest =>
    if c = '*' then
      let sp := rest.takeWhile isPySpace
      let r2 := rest.dropWhile isPySpace
      let g1 := r2.takeWhile (fun x => x.isDigit || x == '.')
      if !sp.isEmpty && !g1.isEmpty then some (String.mk g1) else none
    else none
  | [] => none

/-- `collect_miner_version` (lines 312-324): write an info value for every
line matching the version pattern; other lines are ignored. -/
def collect_miner_version (name out : String) : List Write :=
  (pySplitlines out).foldl
    (fun ws line =>
      match versionLine line with
      | some v => ws ++ [(versionKey name, Value.str v)]
      | none => ws)
    []

/-- The comma-separated fields of one ledger line after its
`rstrip("\r\n")`. -/
def ledgerFields (raw : String) : List String :=
  lineFields (pyRstripNl raw)

/-- One line of `collect_ledger_validators` (lines 332-379): a 10-field
line is skipped when its first two fields are the literal header tokens;
when the name field matches the resolved identity, the four penalty fields
are float-coerced (all four before any write) and written, then the
heartbeat field is written as-is without coercion.  Any other line — wrong
arity or empty — produces no writes and no error (logged only). -/
def ledgerLine (name raw : String) : Except PyError (List Write) :=
  match ledgerFields raw with
  | [c0, c1, c2, _c3, _c4, _c5, c6, c7, c8, c9] =>
    if c0 = "name" ∧ c1 = "owner_address" then Except.ok []
    else if name = c0 then do
      let v6 ← try_float_str c6
      let v7 ← try_float_str c7
      let v8 ← try_float_str c8
      let v9 ← try_float_str c9
      return [(ledgerKey ("tenure") name, v6),
              (ledgerKey ("dkg") name, v7),
              (ledgerKey ("performance") name, v8),
              (ledgerKey ("total") name, v9),
              (blockageKey ("last_heartbeat") name, Value.str c2)]
    else Except.ok []
  | _ => Except.ok []

/-- `collect_ledger_validators` (lines 326-379): process each line in
order, concatenating the writes; the first raising line aborts the pass. -/
def collect_ledger_validators (name out : String) : Except PyError (List Write) :=
  (pySplitlines out).foldlM
    (fun ws raw => do
      let w ← ledgerLine name raw
      pure (ws ++ w))
    []

/-- One iteration of the peer-book loop (lines 396-416), threading the
accumulated writes and the `sessions` counter: a 6-field row writes the
connections gauge only when the name matches and `try_int` actually
produced an int; a 4-field row increments `sessions` unless its first
field is the literal `local`; 1-field rows are ignored; other arities are
logged only.  No branch raises. -/
def peerStep (name : String) (acc : List Write × ℕ) (line : String) :
    List Write × ℕ :=
  match lineFields line with
  | [_addr, pn, _la, conns, _natf, _lu] =>
    match try_int_str conns with
    | Value.int k => if name = pn then (acc.1 ++ [(connKey name, Value.int k)], acc.2) else acc
    | _ => acc
  | [c0, _, _, _] => if c0 = "local" then acc else (acc.1, acc.2 + 1)
  | [_] => acc
  | _ => acc

/-- `collect_peer_book` (lines 381-419): run the loop over every line, then
set the sessions gauge once, at the end, to the final counter. -/
def collect_peer_book (name out : String) : List Write :=
  let r := (pySplitlines out).foldl (peerStep name) ([], 0)
  r.1 ++ [(sessKey name, Value.int (r.2 : ℤ))]

/-! ## HBBFT performance (lines 421-487) -/

/-- The mutable-default-argument dict `hval`: one slot per assigned key;
`none` models an absent key.  Because Python evaluates the default `{}`
once, the same dict persists across calls; here it is threaded explicitly
in and out of the collector. -/
structure HState where
  bba_votes : Option Value := none
  bba_tot : Option Value := none
  seen_votes : Option Value := none
  seen_tot : Option Value := none
  bba_last_val : Option Value := none
  seen_last_val : Option Value := none
  tenure : Option Value := none
  pen_val : Option Value := none
deriving DecidableEq, Repr

/-- `hval.get(key, 0)`. -/
def hget (v : Option Value) : Value := v.getD (Value.int 0)

/-- Two-element unpacking of `s.split(sep)`: raises `ValueError` unless the
split yields exactly two parts. -/
def pySplit2 (s : String) (sep : Char) : Except PyError (String × String) :=
  match splitOnChar sep s.toList with
  | [a, b] => Except.ok (String.mk a, String.mk b)
  | _ => Except.error PyError.valueError

/-- The whitespace-trimmed comma-separated fields of one hbbft line. -/
def hbbftFields (line : String) : List String :=
  (lineFields line).map pyStrip

/-- The state update of one hbbft line: a 7-field row matching the resolved
name assigns all eight keys; a 6-field matching row assigns all but
`tenure`; every other line (another validator's row, an empty line, an
unrecognized arity) leaves the dict unchanged. -/
def hbbftUpdate (name : String) (h : HState) (line : String) : Except PyError HState :=
  match hbbftFields line with
  | [c0, c1, c2, c3, c4, c5, c6] =>
    if name = c0 then do
      let bba ← pySplit2 c1 '/'
      let seen ← pySplit2 c2 '/'
      let bl ← try_float_str c3
      let sl ← try_float_str c4
      let tn ← try_float_str c5
      let pv ← try_float_str c6
      pure { bba_votes := some (Value.str bba.1), bba_tot := some (Value.str bba.2),
             seen_votes := some (Value.str seen.1), seen_tot := some (Value.str seen.2),
             bba_last_val := some bl, seen_last_val := some sl,
             tenure := some tn, pen_val := some pv }
    else pure h
  | [c0, c1, c2, c3, c4, c5] =>
    if name = c0 then do
      let bba ← pySplit2 c1 '/'
      let seen ← pySplit2 c2 '/'
      let bl ← try_float_str c3
      let sl ← try_float_str c4
      let pv ← try_float_str c5
      pure { h with
             bba_votes := some (Value.str bba.1), bba_tot := some (Value.str bba.2),
             seen_votes := some (Value.str seen.1), seen_tot := some (Value.str seen.2),
             bba_last_val := some bl, seen_last_val := some sl, pen_val := some pv }
    else pure h
  | _ => pure h

/-- The eight gauge writes performed at the bottom of every line iteration
(lines 467-487), in source order, reading the current dict with default
0. -/
def hbbftWrites (name : String) (h : HState) : List Write :=
  [(hbbftKey ("Penalty") name, hget h.pen_val),
   (hbbftKey ("BBA_Total") name, hget h.bba_tot),
   (hbbftKey ("BBA_Votes") name, hget h.bba_votes),
   (hbbftKey ("Seen_Total") name, hget h.seen_tot),
   (hbbftKey ("Seen_Votes") name, hget h.seen_votes),
   (hbbftKey ("BBA_Last") name, hget h.bba_last_val),
   (hbbftKey ("Seen_Last") name, hget h.seen_last_val),
   (hbbftKey ("Tenure") name, hget h.tenure)]

/-- The hbbft loop: per line, update the dict (an exception aborts the
collector), then emit the eight writes regardless of whether the line
matched. -/
def hbbftGo (name : String) :
    List String → HState → List Write → Except PyError (HState × List Write)
  | [], h, ws => Except.ok (h, ws)
  | line :: rest, h, ws =>
    match hbbftUpdate name h line with
    | Except.error e => Except.error e
    | Except.ok h2 => hbbftGo name rest h2 (ws ++ hbbftWrites name h2)

/-- `collect_hbbft_performance` (lines 424-487), with the shared default
dict threaded explicitly: returns the dict to carry to the next call plus
this call's writes. -/
def collect_hbbft_performance (name out : String) (hval : HState) :
    Except PyError (HState × List Write) :=
  hbbftGo name (pySplitlines out) hval []

/-! ## The scrape cycle (`stats`, lines 491-512)

The `MinerExporter()` construction (docker lookup and identity resolution)
and the psutil readings are I/O, abstracted into the `name` parameter and
the fields of `CycleInputs`.  The collectors run strictly in source order
with no per-collector exception handling: the first raising collector
aborts the remainder of the cycle, and the writes already performed
remain. -/

/-- Everything one scrape cycle reads from the outside world. -/
structure CycleInputs where
  cpu : ℚ
  mem : ℚ
  attrs : Option CAttrs
  nowT : ℚ
  versionOut : String
  blockAgeOut : String
  heightOut : String
  inconOut : String
  ledgerOut : String
  peerOut : String
  hbbftOut : String
  heightResp : Resp
  statsResp : Resp
  valResp : Resp
  acctResp : Resp

/-- Sequencing of collectors under exception propagation: once a collector
has raised, the remaining collectors do not run; otherwise the collector's
writes are appended. -/
def andThen (st : List Write × Option PyError) (r : Except PyError (List Write)) :
    List Write × Option PyError :=
  match st.2 with
  | some _ => st
  | none =>
    match r with
    | Except.ok ws => (st.1 ++ ws, none)
    | Except.error e => (st.1, some e)

/-- One scrape cycle: the cpu/mem writes, then the ten collectors in the
exact order of `stats()`, threading the hbbft dict; the result is the
writes performed, the carried hbbft dict, and the exception (if any) that
escaped to the `while` loop. -/
def stats (name : String) (inp : CycleInputs) (h0 : HState) :
    List Write × HState × Option PyError :=
  let s0 : List Write × Option PyError :=
    ([(sysKey ("CPU") name, Value.float inp.cpu),
      (sysKey ("Memory") name, Value.float inp.mem)], none)
  let s1 := andThen s0 (Except.ok (collect_container_run_time name inp.attrs inp.nowT))
  let s2 := andThen s1 (Except.ok (collect_miner_version name inp.versionOut))
  let s3 := andThen s2 (Except.ok (collect_block_age name inp.blockAgeOut))
  let s4 := andThen s3 (collect_miner_height name inp.heightOut)
  let s5 := andThen s4 (collect_chain_stats inp.heightResp inp.statsResp)
  let s6 := andThen s5 (Except.ok (collect_in_consensus name inp.inconOut))
  let s7 := andThen s6 (collect_ledger_validators name inp.ledgerOut)
  let s8 := andThen s7 (Except.ok (collect_peer_book name inp.peerOut))
  let p9 :=
    match s8.2 with
    | some e => (s8.1, h0, some e)
    | none =>
      match collect_hbbft_performance name inp.hbbftOut h0 with
      | Except.ok hw => (s8.1 ++ hw.2, hw.1, (none : Option PyError))
      | Except.error e => (s8.1, h0, some e)
  let s10 := andThen (p9.1, p9.2.2) (collect_balance name inp.valResp inp.acctResp)
  (s10.1, p9.2.1, s10.2)

/-! ## Helper lemmas -/

/-- Evaluation scheme for `floatDenote` on unsigned tokens: once the digit
values and fractional length are computed, the value is integer part plus
fractional part over the matching power of ten. -/
theorem floatDenote_spec (s : String) (ipv fpv k : ℕ)
    (hip : digitsVal ((sansSign s).takeWhile (fun c => c ≠ '.')) = ipv)
    (hfp : digitsVal (((sansSign s).dropWhile (fun c => c ≠ '.')).drop 1) = fpv)
    (hk : (((sansSign s).dropWhile (fun c => c ≠ '.')).drop 1).length = k)
    (hsg : hasSign s = false) :
    floatDenote s = (ipv : ℚ) + (fpv : ℚ) / (10 : ℚ) ^ k := by
  simp only [floatDenote]
  rw [hip, hfp, hk, hsg]
  simp

/-- The token `0` denotes the rational 0. -/
theorem floatDenote_zero : floatDenote ("0") = (0 : ℚ) := by
  rw [floatDenote_spec ("0") 0 0 0 (by decide) (by decide) (by decide) (by decide)]
  norm_num

/-- The token `2.91` denotes the rational 291/100. -/
theorem floatDenote_291 : floatDenote ("2.91") = (291 / 100 : ℚ) := by
  rw [floatDenote_spec ("2.91") 2 91 2 (by decide) (by decide) (by decide) (by decide)]
  norm_num

/-- The token `1.86` denotes the rational 93/50. -/
theorem floatDenote_186 : floatDenote ("1.86") = (93 / 50 : ℚ) := by
  rw [floatDenote_spec ("1.86") 1 86 2 (by decide) (by decide) (by decide) (by decide)]
  norm_num

/-- The token `0.1` denotes the rational 1/10. -/
theorem floatDenote_01 : floatDenote ("0.1") = (1 / 10 : ℚ) := by
  rw [floatDenote_spec ("0.1") 0 1 1 (by decide) (by decide) (by decide) (by decide)]
  norm_num

/-- The token `0.2` denotes the rational 1/5. -/
theorem floatDenote_02 : floatDenote ("0.2") = (1 / 5 : ℚ) := by
  rw [floatDenote_spec ("0.2") 0 2 1 (by decide) (by decide) (by decide) (by decide)]
  norm_num

/-- The token `0.3` denotes the rational 3/10. -/
theorem floatDenote_03 : floatDenote ("0.3") = (3 / 10 : ℚ) := by
  rw [floatDenote_spec ("0.3") 0 3 1 (by decide) (by decide) (by decide) (by decide)]
  norm_num

/-- The token `0.6` denotes the rational 3/5. -/
theorem floatDenote_06 : floatDenote ("0.6") = (3 / 5 : ℚ) := by
  rw [floatDenote_spec ("0.6") 0 6 1 (by decide) (by decide) (by decide) (by decide)]
  norm_num

/-! ## Claims -/

/-- C1, counterexample: the token `1.2.3` matches the float pattern and not
the int pattern, yet `try_float` raises `ValueError` on it instead of
returning a float or the original token — refuting both the equal-valued
float clause and the no-exception clause of the claim. -/
theorem c1_counterexample :
    matchesFloatPattern ("1.2.3") = true ∧ matchesIntPattern ("1.2.3") = false ∧
    try_float (Value.str ("1.2.3")) = Except.error PyError.valueError :=
  ⟨by decide, by decide, rfl⟩

/-- C1 (amended): on a string token, the int coercer returns the
equal-valued integer exactly when the token matches the optional-sign
all-digit pattern and never raises; the float coercer returns the
equal-valued float when the token matches the optional-sign digits/dots
pattern and additionally has at most one dot and at least one digit, but
raises `ValueError` on tokens that match the pattern without being float
literals (two or more dots, or no digit); tokens matching neither pattern
pass through unchanged. -/
theorem c1_theorem (s : String) :
    try_int (Value.str s) =
      Except.ok (if matchesIntPattern s then Value.int (intDenote s) else Value.str s) ∧
    try_float (Value.str s) =
      (if matchesFloatPattern s then
        (if decide ((sansSign s).count '.' ≤ 1) && (sansSign s).any (fun c => c.isDigit) then
          Except.ok (Value.float (floatDenote s))
        else Except.error PyError.valueError)
      else Except.ok (Value.str s)) := by
  constructor
  · rfl
  · show try_float_str s = _
    unfold try_float_str parsePyFloat pyFloatValid
    by_cases h1 : matchesFloatPattern s
    · simp only [h1, if_true]
      by_cases h2 :
          (decide ((sansSign s).count '.' ≤ 1) && (sansSign s).any (fun c => c.isDigit)) = true
      · simp [h2]
      · simp [h2]
    · simp [h1]

/-- C9, counterexample: coercing `5` yields the integer 5, and applying the
coercer again to that result raises `TypeError` (the regex matcher rejects
a non-string argument) — so re-coercion of an already-coerced value both
changes the result and fails, refuting the idempotence claim. -/
theorem c9_counterexample :
    try_int (Value.str ("5")) = Except.ok (Value.int 5) ∧
    (try_int (Value.str ("5"))).bind try_int = Except.error PyError.typeError ∧
    (try_float (Value.str ("2.5"))).bind try_float = Except.error PyError.typeError :=
  ⟨rfl, rfl, rfl⟩

/-- C9 (amended): composing a coercer with itself is the identity exactly
on tokens the first application passed through unchanged (pattern
mismatch); when the first application produced a number, the second raises
`TypeError`, and when the first application itself raised `ValueError`
(float-pattern token that is not a float literal), so does the
composite. -/
theorem c9_theorem (s : String) :
    (try_int (Value.str s)).bind try_int =
      (if matchesIntPattern s then Except.error PyError.typeError
       else Except.ok (Value.str s)) ∧
    (try_float (Value.str s)).bind try_float =
      (if matchesFloatPattern s then
        (if pyFloatValid s then Except.error PyError.typeError
         else Except.error PyError.valueError)
      else Except.ok (Value.str s)) := by
  constructor
  · show (Except.ok (try_int_str s)).bind try_int = _
    unfold try_int_str
    by_cases h : matchesIntPattern s
    · simp [h, Except.bind, try_int]
    · simp [h, Except.bind, try_int, try_int_str]
  · show (try_float_str s).bind try_float = _
    unfold try_float_str parsePyFloat
    by_cases h1 : matchesFloatPattern s
    · by_cases h2 : pyFloatValid s
      · simp [h1, h2, Except.bind, try_float]
      · simp [h1, h2, Except.bind]
    · simp [h1, Except.bind, try_float, try_float_str]

/-- C3: the fact resolver builds the key-to-value map from the tuple
pattern, sets `address` to the value of key `pubkey`, and — the preserved
quirk — when key `animal_name` is present, stores under `name` the variable
`v` as the `pubkey` lookup left it, never re-reading the `animal_name`
value: whenever both keys are present (with truthy values), `name` ends up
equal to the `pubkey` value, whatever the `animal_name` value was. -/
theorem c3_theorem (out a b : String)
    (h1 : dictGet (print_keys out) ("pubkey") = some a) (h2 : a ≠ "")
    (h3 : dictGet (print_keys out) ("animal_name") = some b) (h4 : b ≠ "") :
    get_facts out = { address := some a, name := some (some a) } := by
  have ha : a.isEmpty = false := by
    cases he : a.isEmpty
    · rfl
    · exact absurd ((String.isEmpty_iff a).mp he) h2
  have hb : b.isEmpty = false := by
    cases he : b.isEmpty
    · rfl
    · exact absurd ((String.isEmpty_iff b).mp he) h4
  simp only [get_facts, h1, h3, truthyS, ha, hb]
  simp

/-- C3, witness: on the output `{pubkey,"ADDR1"}.` then
`{animal_name,"ignored-because-quirk"}.`, the resolver maps both keys, and
`name` comes out as the pubkey value `ADDR1`, not the `animal_name`
value. -/
theorem c3_witness :
    dictGet (print_keys ("\x7bpubkey,\"ADDR1\"\x7d.\n\x7banimal_name,\"ignored-because-quirk\"\x7d.")) ("pubkey") = some ("ADDR1") ∧
    dictGet (print_keys ("\x7bpubkey,\"ADDR1\"\x7d.\n\x7banimal_name,\"ignored-because-quirk\"\x7d.")) ("animal_name") = some ("ignored-because-quirk") ∧
    get_facts ("\x7bpubkey,\"ADDR1\"\x7d.\n\x7banimal_name,\"ignored-because-quirk\"\x7d.") =
      { address := some ("ADDR1"), name := some (some ("ADDR1")) } :=
  ⟨by decide, by decide,
   c3_theorem ("\x7bpubkey,\"ADDR1\"\x7d.\n\x7banimal_name,\"ignored-because-quirk\"\x7d.")
     ("ADDR1") ("ignored-because-quirk") (by decide) (by decide) (by decide) (by decide)⟩

/-- C5, counterexample: on empty command output the height collector raises
`IndexError` (an exception escapes) and the block-age collector writes the
uncoerced empty token into its gauge (the sink is mutated with a garbage
value) — refuting both the no-exception and the no-mutation clause. -/
theorem c5_counterexample :
    collect_miner_height ("bob") ("") = Except.error PyError.indexError ∧
    collect_block_age ("bob") ("") = [(blockageKey ("BlockAge") ("bob"), Value.str (""))] :=
  ⟨rfl, rfl⟩

/-- C5 (amended): the height and block-age collectors have no
empty-response guard: for every validator name, empty command output makes
the height collector raise `IndexError` before writing anything, and makes
the block-age collector write the empty token, uncoerced, to its gauge. -/
theorem c5_theorem (name : String) :
    collect_miner_height name ("") = Except.error PyError.indexError ∧
    collect_block_age name ("") = [(blockageKey ("BlockAge") name, Value.str (""))] :=
  ⟨rfl, rfl⟩

/-- C6, counterexample: a response whose body is malformed JSON makes
`ret.json()` raise `json.JSONDecodeError` — a `ValueError` that
`safe_get_json` does not catch — so the exception propagates past the
chain-stats collector, refuting the no-throw clause. -/
theorem c6_counterexample :
    collect_chain_stats (Resp.ok none) Resp.badStatus = Except.error PyError.valueError :=
  rfl

/-- C6 (amended): falsy responses from the first endpoint (non-200,
connection or TLS failure, JSON `null` or an empty object) leave both
chain-stats gauges untouched with only a logged error; but a malformed JSON
body raises `ValueError` out of the collector, a well-formed response
without the expected keys raises `KeyError`, and when only the second
endpoint fails the height gauge has already been written. -/
theorem c6_theorem (sresp : Resp) :
    collect_chain_stats Resp.badStatus sresp = Except.ok [] ∧
    collect_chain_stats Resp.connError sresp = Except.ok [] ∧
    collect_chain_stats Resp.sslError sresp = Except.ok [] ∧
    collect_chain_stats (Resp.ok (some Json.null)) sresp = Except.ok [] ∧
    collect_chain_stats (Resp.ok (some (Json.obj []))) sresp = Except.ok [] ∧
    collect_chain_stats (Resp.ok none) sresp = Except.error PyError.valueError ∧
    collect_chain_stats (Resp.ok (some (Json.obj [("foo", Json.num 1)]))) sresp =
      Except.error PyError.keyError ∧
    collect_chain_stats (Resp.ok (some (Json.obj [("data", Json.obj [("height", Json.num 12345)])])))
      Resp.badStatus = Except.ok [(chainKey ("height"), Value.int 12345)] :=
  ⟨rfl, rfl, rfl, rfl, rfl, rfl, rfl, rfl⟩

/-- Whenever the hbbft loop completes without raising, it has emitted
exactly eight gauge writes per input line, whatever the lines
contained. -/
theorem hbbftGo_length (name : String) :
    ∀ (lines : List String) (h : HState) (ws : List Write),
      (hbbftGo name lines h ws).map (fun p => p.2.length) =
      (hbbftGo name lines h ws).map (fun _ => ws.length + 8 * lines.length) := by
  intro lines
  induction lines with
  | nil => intro h ws; simp [hbbftGo, Except.map]
  | cons l rest ih =>
    intro h ws
    rw [hbbftGo]
    cases hu : hbbftUpdate name h l with
    | error e => rfl
    | ok h2 =>
      rw [ih h2 (ws ++ hbbftWrites name h2)]
      have hfun : (fun _ : HState × List Write =>
          (ws ++ hbbftWrites name h2).length + 8 * rest.length) =
          (fun _ : HState × List Write => ws.length + 8 * (l :: rest).length) := by
        funext p
        simp [hbbftWrites]
        ring
      rw [hfun]

/-- The accumulator state after decoding the matching seven-field row
`bob,5/5,237/237,0,0,2.91,2.91`. -/
def c4state : HState :=
  { bba_votes := some (Value.str ("5")), bba_tot := some (Value.str ("5")),
    seen_votes := some (Value.str ("237")), seen_tot := some (Value.str ("237")),
    bba_last_val := some (Value.float (floatDenote ("0"))),
    seen_last_val := some (Value.float (floatDenote ("0"))),
    tenure := some (Value.float (floatDenote ("2.91"))),
    pen_val := some (Value.float (floatDenote ("2.91"))) }

/-- C4: the hbbft accumulator is threaded across calls, never reset.
Whatever the accumulator held before, a cycle containing the matching
seven-field row rebuilds it from that row and emits its values; the next
cycle, whose only row belongs to another validator, leaves the accumulator
unchanged and re-emits exactly the same last-known values (spelled out with
their rationals in the third conjunct: visibly not zeros); with an empty
accumulator the absent keys are emitted as the default 0; and every
completed call emits exactly eight writes per line of output, matched or
not. -/
theorem c4_theorem (h0 : HState) :
    collect_hbbft_performance ("bob") ("bob,5/5,237/237,0,0,2.91,2.91") h0 =
      Except.ok (c4state, hbbftWrites ("bob") c4state) ∧
    collect_hbbft_performance ("bob") ("curly-peach-owl,11/11,368/368,0,0,1.86") c4state =
      Except.ok (c4state, hbbftWrites ("bob") c4state) ∧
    hbbftWrites ("bob") c4state =
      [(hbbftKey ("Penalty") ("bob"), Value.float (291 / 100)),
       (hbbftKey ("BBA_Total") ("bob"), Value.str ("5")),
       (hbbftKey ("BBA_Votes") ("bob"), Value.str ("5")),
       (hbbftKey ("Seen_Total") ("bob"), Value.str ("237")),
       (hbbftKey ("Seen_Votes") ("bob"), Value.str ("237")),
       (hbbftKey ("BBA_Last") ("bob"), Value.float 0),
       (hbbftKey ("Seen_Last") ("bob"), Value.float 0),
       (hbbftKey ("Tenure") ("bob"), Value.float (291 / 100))] ∧
    collect_hbbft_performance ("bob") ("curly-peach-owl,11/11,368/368,0,0,1.86") {} =
      Except.ok ({},
        [(hbbftKey ("Penalty") ("bob"), Value.int 0),
         (hbbftKey ("BBA_Total") ("bob"), Value.int 0),
         (hbbftKey ("BBA_Votes") ("bob"), Value.int 0),
         (hbbftKey ("Seen_Total") ("bob"), Value.int 0),
         (hbbftKey ("Seen_Votes") ("bob"), Value.int 0),
         (hbbftKey ("BBA_Last") ("bob"), Value.int 0),
         (hbbftKey ("Seen_Last") ("bob"), Value.int 0),
         (hbbftKey ("Tenure") ("bob"), Value.int 0)]) ∧
    (∀ (nm out : String) (h : HState),
      (collect_hbbft_performance nm out h).map (fun p => p.2.length) =
      (collect_hbbft_performance nm out h).map (fun _ => 8 * (pySplitlines out).length)) := by
  refine ⟨rfl, rfl, ?_, rfl, ?_⟩
  · rw [floatDenote_291.symm, floatDenote_zero.symm]
    rfl
  · intro nm out h
    have hlen := hbbftGo_length nm (pySplitlines out) h []
    simpa using hlen

/-- A counted session row of the peer book: exactly four fields, first
field not the literal `local`. -/
def isSessionLine (line : String) : Bool :=
  match lineFields line with
  | [c0, _, _, _] => !(c0 == "local")
  | _ => false

/-- The number of counted session rows in a peer-book output. -/
def sessionTally (out : String) : ℕ :=
  ((pySplitlines out).filter isSessionLine).length

/-- One peer-book iteration increments the session counter exactly on
counted session rows. -/
theorem peerStep_snd (name : String) (acc : List Write × ℕ) (line : String) :
    (peerStep name acc line).2 = acc.2 + (if isSessionLine line then 1 else 0) := by
  unfold peerStep isSessionLine
  split
  · split
    · split <;> simp_all
    · simp_all
  · split <;> simp_all
  · simp_all
  · split <;> simp_all

/-- One peer-book iteration never writes the sessions gauge (its only
possible write is the connections gauge). -/
theorem peerStep_countP (name : String) (acc : List Write × ℕ) (line : String) :
    ((peerStep name acc line).1).countP (fun w => decide (w.1 = sessKey name)) =
    acc.1.countP (fun w => decide (w.1 = sessKey name)) := by
  unfold peerStep
  split
  · split
    · split
      · simp [List.countP_append, List.countP_cons, connKey, sessKey]
      · rfl
    · rfl
  · split <;> rfl
  · rfl
  · rfl

/-- Folding the peer-book loop adds the number of counted session rows to
the counter. -/
theorem peerFold_snd (name : String) :
    ∀ (lines : List String) (acc : List Write × ℕ),
      (List.foldl (peerStep name) acc lines).2 = acc.2 + (lines.filter isSessionLine).length := by
  intro lines
  induction lines with
  | nil => intro acc; simp
  | cons l t ih =>
    intro acc
    rw [List.foldl_cons, ih, peerStep_snd]
    by_cases h : isSessionLine l
    · simp [h, List.filter_cons]
      omega
    · simp [h, List.filter_cons]

/-- Folding the peer-book loop performs no sessions-gauge write. -/
theorem peerFold_countP (name : String) :
    ∀ (lines : List String) (acc : List Write × ℕ),
      ((List.foldl (peerStep name) acc lines).1).countP (fun w => decide (w.1 = sessKey name)) =
      acc.1.countP (fun w => decide (w.1 = sessKey name)) := by
  intro lines
  induction lines with
  | nil => intro acc; rfl
  | cons l t ih =>
    intro acc
    rw [List.foldl_cons, ih, peerStep_countP]

/-- C7: for every peer-book output, the sessions gauge is written exactly
once, as the very last write of the pass, with the count of 4-field rows
whose first field is not the literal `local`; and on the concrete output
with one matching 6-field row (connections `12`) and three 4-field rows of
which one is `local`, the pass writes exactly the connections gauge with
integer 12 and the sessions gauge with 2.  (1-field rows and unrecognized
arities contribute nothing, as the concrete output also exercises.) -/
theorem c7_theorem (name out : String) :
    (collect_peer_book name out).countP (fun w => decide (w.1 = sessKey name)) = 1 ∧
    (collect_peer_book name out).getLast? =
      some (sessKey name, Value.int (sessionTally out : ℤ)) ∧
    collect_peer_book ("bob") ("a,bob,1,12,none,2s\nl1,r,p,n\nlocal,r,p,n\nx,r,p,n") =
      [(connKey ("bob"), Value.int 12), (sessKey ("bob"), Value.int 2)] := by
  refine ⟨?_, ?_, rfl⟩
  · unfold collect_peer_book
    rw [List.countP_append, peerFold_countP name (pySplitlines out) ([], 0)]
    simp
  · unfold collect_peer_book
    rw [List.getLast?_concat]
    have hsnd := peerFold_snd name (pySplitlines out) ([], 0)
    simp only [Nat.zero_add] at hsnd
    rw [hsnd]
    rfl

/-- C10: in the peer-book loop, a 6-field row writes the connections gauge
exactly when the row's name field matches the resolved identity and the
int coercion of the connections field produced an integer; otherwise —
in particular for every non-numeric connections field — the iteration
returns its accumulator unchanged and raises nothing. -/
theorem c10_theorem (name line a pn la conns natf lu : String) (acc : List Write × ℕ)
    (hsplit : lineFields line = [a, pn, la, conns, natf, lu]) :
    peerStep name acc line =
      (if name = pn ∧ matchesIntPattern conns = true then
        (acc.1 ++ [(connKey name, Value.int (intDenote conns))], acc.2)
      else acc) := by
  unfold peerStep try_int_str
  rw [hsplit]
  by_cases hm : matchesIntPattern conns
  · by_cases hn : name = pn
    · simp [hm, hn]
    · simp [hm, hn]
  · simp [hm]

/-- C10, witness: the 6-field row `a,bob,1,xx,none,2s` has a non-numeric
connections field, and the iteration leaves the accumulator untouched. -/
theorem c10_witness :
    lineFields ("a,bob,1,xx,none,2s") = ["a", "bob", "1", "xx", "none", "2s"] ∧
    peerStep ("bob") (([], 0) : List Write × ℕ) ("a,bob,1,xx,none,2s") = ([], 0) :=
  ⟨by decide,
   (c10_theorem ("bob") ("a,bob,1,xx,none,2s") ("a") ("bob") ("1") ("xx") ("none") ("2s")
     ([], 0) (by decide)).trans (by decide)⟩

/-- C8: a 10-field ledger line is skipped when its first two fields are the
literal header tokens `name`, `owner_address`; when instead its name field
equals the resolved identity, the pass writes the four float-coerced
penalty fields (tenure, dkg, performance, total) and then the heartbeat
field as a literal pass-through with no float coercion; other 10-field
lines write nothing; and every line that does not have exactly ten fields
produces no writes and no error. -/
theorem c8_theorem (name raw c0 c1 c2 c3 c4 c5 c6 c7 c8 c9 : String)
    (hsplit : ledgerFields raw = [c0, c1, c2, c3, c4, c5, c6, c7, c8, c9])
    (v6 v7 v8 v9 : Value)
    (h6 : try_float_str c6 = Except.ok v6) (h7 : try_float_str c7 = Except.ok v7)
    (h8 : try_float_str c8 = Except.ok v8) (h9 : try_float_str c9 = Except.ok v9) :
    ledgerLine name raw =
      Except.ok (if c0 = "name" ∧ c1 = "owner_address" then []
        else if name = c0 then
          [(ledgerKey ("tenure") name, v6), (ledgerKey ("dkg") name, v7),
           (ledgerKey ("performance") name, v8), (ledgerKey ("total") name, v9),
           (blockageKey ("last_heartbeat") name, Value.str c2)]
        else []) ∧
    (∀ other : String, (ledgerFields other).length = 10 ∨ ledgerLine name other = Except.ok []) := by
  constructor
  · unfold ledgerLine
    rw [hsplit]
    by_cases hh : c0 = "name" ∧ c1 = "owner_address"
    · simp [hh]
    · by_cases hn : name = c0
      · simp [hh, hn, h6, h7, h8, h9]
        rfl
      · simp [hh, hn]
  · intro other
    unfold ledgerLine
    split
    · next heq => left; rw [heq]; rfl
    · next => right; rfl

/-- C8, witness: the spec's example line for identity `alice` yields the
four penalty writes 1/10, 1/5, 3/10, 3/5 and the heartbeat token `5s`
written as given; the header line is skipped regardless of its remaining
content. -/
theorem c8_witness :
    ledgerLine ("alice") ("alice,ownerX,5s,100,ok,1.2.3,0.1,0.2,0.3,0.6") =
      Except.ok
        [(ledgerKey ("tenure") ("alice"), Value.float (1 / 10)),
         (ledgerKey ("dkg") ("alice"), Value.float (1 / 5)),
         (ledgerKey ("performance") ("alice"), Value.float (3 / 10)),
         (ledgerKey ("total") ("alice"), Value.float (3 / 5)),
         (blockageKey ("last_heartbeat") ("alice"), Value.str ("5s"))] ∧
    ledgerLine ("alice") ("name,owner_address,5s,100,ok,1.2.3,0.1,0.2,0.3,0.6") =
      Except.ok [] := by
  constructor
  · have t1 := (c8_theorem ("alice") ("alice,ownerX,5s,100,ok,1.2.3,0.1,0.2,0.3,0.6")
      ("alice") ("ownerX") ("5s") ("100") ("ok") ("1.2.3") ("0.1") ("0.2") ("0.3") ("0.6")
      (by decide)
      (Value.float (floatDenote ("0.1"))) (Value.float (floatDenote ("0.2")))
      (Value.float (floatDenote ("0.3"))) (Value.float (floatDenote ("0.6")))
      rfl rfl rfl rfl).1
    rw [t1, floatDenote_01.symm, floatDenote_02.symm, floatDenote_03.symm, floatDenote_06.symm]
    rfl
  · have t2 := (c8_theorem ("alice") ("name,owner_address,5s,100,ok,1.2.3,0.1,0.2,0.3,0.6")
      ("name") ("owner_address") ("5s") ("100") ("ok") ("1.2.3") ("0.1") ("0.2") ("0.3") ("0.6")
      (by decide)
      (Value.float (floatDenote ("0.1"))) (Value.float (floatDenote ("0.2")))
      (Value.float (floatDenote ("0.3"))) (Value.float (floatDenote ("0.6")))
      rfl rfl rfl rfl).1
    rw [t2]
    rfl

/-! ## The scrape-cycle claims -/

/-- A canned cycle with the height command returning empty output (a data
source returning an error/empty response) while every later source is
healthy — in particular the in-consensus source answers `true`. -/
def c2badInputs : CycleInputs :=
  { cpu := 0, mem := 0, attrs := none, nowT := 0,
    versionOut := "Installed versions:\n* 0.1.48\tpermanent",
    blockAgeOut := "123",
    heightOut := "",
    inconOut := "true",
    ledgerOut := "",
    peerOut := "",
    hbbftOut := "",
    heightResp := Resp.badStatus, statsResp := Resp.badStatus,
    valResp := Resp.badStatus, acctResp := Resp.badStatus }

/-- C2, counterexample: with the height source empty, the height collector
raises `IndexError`, the cycle ends with that error, and the remaining
collectors never run — the cycle contains no in-consensus write and no
sessions write even though the in-consensus source returned a healthy
`true` (as the last conjunct shows the collector alone would have written
1).  Collectors are not isolated from each other's failures. -/
theorem c2_counterexample :
    (stats ("bob") c2badInputs {}).2.2 = some PyError.indexError ∧
    (stats ("bob") c2badInputs {}).1.countP
      (fun w => decide (w.1 = inconKey ("bob"))) = 0 ∧
    (stats ("bob") c2badInputs {}).1.countP
      (fun w => decide (w.1 = sessKey ("bob"))) = 0 ∧
    collect_in_consensus ("bob") (c2badInputs.inconOut) =
      [(inconKey ("bob"), Value.int 1)] :=
  ⟨rfl, by decide, by decide, rfl⟩

/-- A canned cycle whose eight command-backed sources are healthy while the
four HTTP fetches (both chain-stats endpoints and both balance lookups) are
left as parameters. -/
def c2goodInputs (hr sr vr ar : Resp) : CycleInputs :=
  { cpu := 0, mem := 0, attrs := none, nowT := 0,
    versionOut := "Installed versions:\n* 0.1.48\tpermanent",
    blockAgeOut := "123",
    heightOut := "6123 6124",
    inconOut := "true",
    ledgerOut := "name,owner_address,last_heartbeat,stake,status,version,tenure_penalty,dkg_penalty,performance_penalty,total_penalty\nbob,own1,100,stake,ok,1.0.1,0.1,0.2,0.3,0.6",
    peerOut := "a,bob,1,12,none,2s\nlocal,r,p,n\nx,r,p,n",
    hbbftOut := "bob,5/5,237/237,0,0,2.91,2.91",
    heightResp := hr, statsResp := sr, valResp := vr, acctResp := ar }

/-- C2 (amended): collectors run sequentially with no per-collector
isolation — a raising collector aborts the remainder of the cycle (the
counterexample), and only the outer loop's broad handlers keep the process
alive.  The cycle does, however, complete when the HTTP-backed sources —
the two erroring data sources the spec allows — return soft failures,
because `safe_get_json` turns those into `None` and the chain-stats and
balance collectors guard falsy responses: every command-backed collector
still runs and writes, the erroring sources merely leave their own gauges
unwritten. -/
theorem c2_theorem (hr sr vr ar : Resp)
    (h1 : safe_get_json hr = Except.ok none) (_h2 : safe_get_json sr = Except.ok none)
    (h3 : safe_get_json vr = Except.ok none) (_h4 : safe_get_json ar = Except.ok none) :
    (stats ("bob") (c2goodInputs hr sr vr ar) {}).2.2 = none ∧
    (stats ("bob") (c2goodInputs hr sr vr ar) {}).1.countP
      (fun w => decide (w.1 = inconKey ("bob"))) = 1 ∧
    (stats ("bob") (c2goodInputs hr sr vr ar) {}).1.countP
      (fun w => decide (w.1 = valKey ("Height") ("bob"))) = 1 ∧
    (stats ("bob") (c2goodInputs hr sr vr ar) {}).1.countP
      (fun w => decide (w.1 = blockageKey ("BlockAge") ("bob"))) = 1 ∧
    (stats ("bob") (c2goodInputs hr sr vr ar) {}).1.countP
      (fun w => decide (w.1 = versionKey ("bob"))) = 1 ∧
    (stats ("bob") (c2goodInputs hr sr vr ar) {}).1.countP
      (fun w => decide (w.1 = ledgerKey ("total") ("bob"))) = 1 ∧
    (stats ("bob") (c2goodInputs hr sr vr ar) {}).1.countP
      (fun w => decide (w.1 = connKey ("bob"))) = 1 ∧
    (stats ("bob") (c2goodInputs hr sr vr ar) {}).1.countP
      (fun w => decide (w.1 = sessKey ("bob"))) = 1 ∧
    (stats ("bob") (c2goodInputs hr sr vr ar) {}).1.countP
      (fun w => decide (w.1 = hbbftKey ("Penalty") ("bob"))) = 1 ∧
    (stats ("bob") (c2goodInputs hr sr vr ar) {}).1.countP
      (fun w => decide (w.1 = chainKey ("height"))) = 0 ∧
    (stats ("bob") (c2goodInputs hr sr vr ar) {}).1.countP
      (fun w => decide (w.1 = chainKey ("staked_validators"))) = 0 ∧
    (stats ("bob") (c2goodInputs hr sr vr ar) {}).1.countP
      (fun w => decide (w.1 = balanceKey ("bob"))) = 0 := by
  have hc : collect_chain_stats hr sr = Except.ok [] := by
    unfold collect_chain_stats
    rw [h1]
    rfl
  have hb : collect_balance ("bob") vr ar = Except.ok [] := by
    unfold collect_balance
    rw [h3]
    rfl
  simp only [stats, c2goodInputs]
  rw [hc, hb]
  refine ⟨rfl, ?_, ?_, ?_, ?_, ?_, ?_, ?_, ?_, ?_, ?_, ?_⟩ <;> decide

/-- C2, witness: with all four HTTP fetches failing as connection errors,
the cycle completes without error and the in-consensus collector has
run. -/
theorem c2_witness :
    (stats ("bob") (c2goodInputs Resp.connError Resp.connError Resp.connError
      Resp.connError) {}).2.2 = none ∧
    (stats ("bob") (c2goodInputs Resp.connError Resp.connError Resp.connError
      Resp.connError) {}).1.countP (fun w => decide (w.1 = inconKey ("bob"))) = 1 :=
  ⟨(c2_theorem Resp.connError Resp.connError Resp.connError Resp.connError
      rfl rfl rfl rfl).1,
   (c2_theorem Resp.connError Resp.connError Resp.connError Resp.connError
      rfl rfl rfl rfl).2.1⟩

end MinerExporter
